import Mathlib

/-!
Verification of the per-batch ingestion and upsert routine of
`spark_stream.py` (repository song9537/real-time-data-streaming).

The embedding models:
  * `UserRecord` — one row of the parsed selection dataframe (12 string
    fields, each possibly null), as seen by `insert_data` through
    `row.asDict()`;
  * `kwargsGet` — the dictionary lookup `kwargs.get(key)` on such a row;
  * Python's `uuid.UUID(<string>)` constructor (stdlib `uuid.py`), used by
    `insert_data` to validate the `id` field;
  * `insert_data(session, df_batch, batch_id)` — the per-batch upsert loop,
    with the Cassandra session modelled as a keyed store (an association
    list keyed by the canonical UUID hex) plus a set of keys whose writes
    raise (connectivity / constraint failures);
  * the `__main__` startup sequence (Batch Driver state machine).
-/

set_option maxRecDepth 16384

/-- A parsed record as `insert_data` sees it through `row.asDict()`: the 12
schema fields of `create_selection_df_from_kafka`, each value a string or
null.  An absent `id` key is modelled as `none` (the schema always carries
the key, but `insert_data` guards for its absence explicitly). -/
structure UserRecord where
  id : Option String
  first_name : Option String
  last_name : Option String
  gender : Option String
  address : Option String
  post_code : Option String
  email : Option String
  username : Option String
  dob : Option String
  registered_date : Option String
  phone : Option String
  picture : Option String
deriving Repr, DecidableEq

/-- `kwargs.get(key)` on `kwargs = row.asDict()`: looks the key up among the
12 schema field names; any other key (such as the literal `"postcode"` that
`insert_data` asks for) is absent and yields `None`. -/
def kwargsGet (r : UserRecord) : String → Option String
  | "id" => r.id
  | "first_name" => r.first_name
  | "last_name" => r.last_name
  | "gender" => r.gender
  | "address" => r.address
  | "post_code" => r.post_code
  | "email" => r.email
  | "username" => r.username
  | "dob" => r.dob
  | "registered_date" => r.registered_date
  | "phone" => r.phone
  | "picture" => r.picture
  | _ => none

/-- Fuel-driven worker for `removeSubstr`: scans left to right, removing
each non-overlapping occurrence of `pat`, as Python's `str.replace(pat, "")`
does.  Fuel is the length of the scanned list, consumed one position per
step, so `removeSubstr` below always supplies enough. -/
def removeSubstrAux (pat : List Char) : Nat → List Char → List Char
  | 0, cs => cs
  | _ + 1, [] => []
  | fuel + 1, c :: cs =>
    if pat ≠ [] ∧ pat.isPrefixOf (c :: cs) then
      removeSubstrAux pat fuel ((c :: cs).drop pat.length)
    else
      c :: removeSubstrAux pat fuel cs

/-- Python's `s.replace(pat, "")`: every non-overlapping occurrence of `pat`
removed, scanning left to right. -/
def removeSubstr (pat : List Char) (cs : List Char) : List Char :=
  removeSubstrAux pat cs.length cs

/-- Python's `s.strip("\x7b\x7d")`: drop every leading and trailing brace
character. -/
def stripBraces (cs : List Char) : List Char :=
  ((cs.dropWhile fun c => c = '{' || c = '}').reverse.dropWhile
    fun c => c = '{' || c = '}').reverse

/-- An ASCII hexadecimal digit (used by the canonical-form checker below). -/
def isHexChar (c : Char) : Bool :=
  c.isDigit || ('a' ≤ c && c ≤ 'f') || ('A' ≤ c && c ≤ 'F')

/-- The normalisation Python's `uuid.UUID(hex)` constructor (stdlib
`uuid.py`) applies to its string argument before parsing: remove every
occurrence of `urn:` and of `uuid:`, strip surrounding braces, remove every
hyphen. -/
def pythonUUIDHex (s : String) : List Char :=
  (stripBraces (removeSubstr "uuid:".toList (removeSubstr "urn:".toList s.toList))).filter
    fun c => c ≠ '-'

/-- The whitespace Python's base-16 integer parser skips around the number:
the six ASCII whitespace characters `Py_ISSPACE` holds for. -/
def isAsciiParseSpace (c : Char) : Bool :=
  c = ' ' || c = '\t' || c = '\n' || c = '\r' || c.toNat = 11 || c.toNat = 12

/-- The non-ASCII code points `Py_UNICODE_ISSPACE` holds for: the Unicode
whitespace the transform step of `int(str, 16)` maps to an ASCII space. -/
def isUnicodeSpace (n : Nat) : Bool :=
  n = 0x85 || n = 0xa0 || n = 0x1680 || (0x2000 ≤ n && n ≤ 0x200a) ||
  n = 0x2028 || n = 0x2029 || n = 0x202f || n = 0x205f || n = 0x3000

/-- First code points of the Unicode 15.0 decimal-digit runs (category Nd,
ten consecutive code points each, digit value = code point minus start):
the digits `Py_UNICODE_TODECIMAL` recognises for CPython 3.12. -/
def ndRangeStarts : List Nat :=
  [0x30, 0x660, 0x6f0, 0x7c0, 0x966, 0x9e6, 0xa66, 0xae6, 0xb66, 0xbe6,
   0xc66, 0xce6, 0xd66, 0xde6, 0xe50, 0xed0, 0xf20, 0x1040, 0x1090, 0x17e0,
   0x1810, 0x1946, 0x19d0, 0x1a80, 0x1a90, 0x1b50, 0x1bb0, 0x1c40, 0x1c50,
   0xa620, 0xa8d0, 0xa900, 0xa9d0, 0xa9f0, 0xaa50, 0xabf0, 0xff10,
   0x104a0, 0x10d30, 0x11066, 0x110f0, 0x11136, 0x111d0, 0x112f0, 0x11450,
   0x114d0, 0x11650, 0x116c0, 0x11730, 0x118e0, 0x11950, 0x11c50, 0x11d50,
   0x11da0, 0x11f50, 0x16a60, 0x16ac0, 0x16b50, 0x1d7ce, 0x1d7d8, 0x1d7e2,
   0x1d7ec, 0x1d7f6, 0x1e140, 0x1e2f0, 0x1e4f0, 0x1e950, 0x1fbf0]

/-- The value of a Unicode decimal digit, when the character is one. -/
def unicodeDecimalDigit (c : Char) : Option Nat :=
  match ndRangeStarts.find? (fun s => s ≤ c.toNat && c.toNat < s + 10) with
  | some s => some (c.toNat - s)
  | none => none

/-- One character of CPython's `_PyUnicode_TransformDecimalAndSpaceToASCII`,
run before `int(str, 16)` parses: code points below 127 pass through,
Unicode whitespace becomes a space, Unicode decimal digits become the ASCII
digit of their value, anything else becomes `?` (which the parser then
rejects).  CPython skips the transform on pure-ASCII strings, but applying
it unconditionally is observationally equivalent: the only ASCII character
it touches is DEL, which the parser rejects either way. -/
def transformChar (c : Char) : Char :=
  if c.toNat < 127 then c
  else if isUnicodeSpace c.toNat then ' '
  else
    match unicodeDecimalDigit c with
    | some d => Char.ofNat (48 + d)
    | none => '?'

/-- The value of one ASCII hexadecimal digit, as the base-16 parser reads
it. -/
def hexDigitVal (c : Char) : Option Nat :=
  if '0' ≤ c ∧ c ≤ '9' then some (c.toNat - 48)
  else if 'a' ≤ c ∧ c ≤ 'f' then some (c.toNat - 87)
  else if 'A' ≤ c ∧ c ≤ 'F' then some (c.toNat - 55)
  else none

/-- The digit-and-underscore tail of CPython's base-16 number grammar
(`_PyLong_FromString`, PEP 515): hexadecimal digits with single underscores
allowed only after a digit or directly after the `0x` prefix (`uOk`), each
underscore followed by a digit, at least one digit in total (`seen`),
optionally followed by trailing ASCII whitespace, then the end. -/
def parseHexTail : List Char → Bool → Bool → Nat → Option Nat
  | [], uOk, seen, acc => if uOk && seen then some acc else none
  | c :: cs, uOk, seen, acc =>
    if c = '_' then
      if uOk then parseHexTail cs false seen acc else none
    else
      match hexDigitVal c with
      | some d => parseHexTail cs true true (16 * acc + d)
      | none =>
        if (uOk && seen) && (c :: cs).all isAsciiParseSpace then some acc else none

/-- The unsigned part of the grammar: an optional `0x`/`0X` prefix (an
underscore may directly follow it), then the digit tail. -/
def parseHexBody : List Char → Option Nat
  | '0' :: c :: rest =>
    if c = 'x' ∨ c = 'X' then parseHexTail rest true false 0
    else parseHexTail ('0' :: c :: rest) false false 0
  | cs => parseHexTail cs false false 0

/-- Python's `int(s, 16)` on a character list: the Unicode transform, then
leading ASCII whitespace, an optional single sign, and the unsigned body. -/
def pythonIntHex16 (cs : List Char) : Option Int :=
  match (cs.map transformChar).dropWhile isAsciiParseSpace with
  | '+' :: rest => (parseHexBody rest).map fun n => (n : Int)
  | '-' :: rest => (parseHexBody rest).map fun n => -(n : Int)
  | rest => (parseHexBody rest).map fun n => (n : Int)

/-- The 128-bit value of Python's `uuid.UUID(s)` when the constructor
succeeds: after normalisation the candidate must be exactly 32 characters
(the `len(hex) != 32` check), `int(hex, 16)` must parse it, and the value
must pass the constructor's `0 <= int < 1 << 128` range check.  (A minus
sign is removed with the hyphens before the parse, so the parsed value is
never negative, and 32 characters bound it below `2 ^ 128`: on this path
the range check never rejects — it is kept for fidelity.) -/
def pythonUUIDVal (s : String) : Option Nat :=
  if (pythonUUIDHex s).length = 32 then
    match pythonIntHex16 (pythonUUIDHex s) with
    | some v => if 0 ≤ v ∧ v < 2 ^ 128 then some v.toNat else none
    | none => none
  else none

/-- Whether Python's `uuid.UUID(s)` succeeds. -/
def pythonUUIDOk (s : String) : Bool :=
  (pythonUUIDVal s).isSome

/-- The lowercase ASCII hex digit of a value below 16. -/
def hexDigitChar (n : Nat) : Char :=
  if n < 10 then Char.ofNat (48 + n) else Char.ofNat (87 + n)

/-- The low `k` hexadecimal digits of `v`, most significant first. -/
def natHex : Nat → Nat → List Char → List Char
  | 0, _, acc => acc
  | k + 1, v, acc => natHex k (v / 16) (hexDigitChar (v % 16) :: acc)

/-- The storage key of an accepted id: the canonical 32-digit lowercase hex
rendering of the `uuid.UUID` object's 128-bit value, so two textual forms
denote the same stored row exactly when they denote the same UUID value.
Ids the constructor rejects never reach the store and get a dummy key. -/
def uuidKey (s : String) : String :=
  match pythonUUIDVal s with
  | some v => String.mk (natHex 32 v [])
  | none => ""

/-- The 11 non-key column values `insert_data` binds into the
`INSERT INTO spark_streams.created_users` statement, in the roles the
statement's column list assigns them.  Each is read off `kwargs` with the
literal key the Python code uses — in particular the `post_code` column
receives `kwargs.get("postcode")`. -/
structure StoredRow where
  first_name : Option String
  last_name : Option String
  gender : Option String
  address : Option String
  post_code : Option String
  email : Option String
  username : Option String
  dob : Option String
  registered_date : Option String
  phone : Option String
  picture : Option String
deriving Repr, DecidableEq

/-- The row `insert_data` builds for one record (lines 62–95 of
`spark_stream.py`): field k of the INSERT gets `kwargs.get(<key used in the
code>)`.  The code reads `kwargs.get("postcode")` for the `post_code`
column. -/
def rowOfRecord (r : UserRecord) : StoredRow :=
  ⟨kwargsGet r "first_name", kwargsGet r "last_name", kwargsGet r "gender",
   kwargsGet r "address", kwargsGet r "postcode", kwargsGet r "email",
   kwargsGet r "username", kwargsGet r "dob", kwargsGet r "registered_date",
   kwargsGet r "phone", kwargsGet r "picture"⟩

/-- The store: Cassandra's `created_users` table as an association list from
the canonical UUID key to the row's non-key columns. -/
abbrev UserStore := List (String × StoredRow)

/-- A Cassandra `INSERT` is an upsert: replace the row with the same primary
key in place, or append a fresh row. -/
def upsertRow (k : String) (v : StoredRow) : UserStore → UserStore
  | [] => [(k, v)]
  | (k', v') :: rest =>
    if k' = k then (k, v) :: rest else (k', v') :: upsertRow k v rest

/-- One `logging` call made by `insert_data`: the success message
`Data inserted for <first_name> <last_name>` (logging.info) or the failure
message `could not insert data due to <e>` (logging.error). -/
inductive LogEntry where
  | infoInserted (first_name last_name : Option String)
  | errorInsertFailed
deriving Repr, DecidableEq

/-- The error `insert_data` raises out of the batch: the `ValueError` for a
missing or empty id, or the `ValueError` for an id `uuid.UUID` rejects. -/
inductive InsertError where
  | missingId
  | invalidUUID (s : String)
deriving Repr, DecidableEq

/-- What one call of `insert_data` did: the writes it issued to the session
(`session.execute`, in order, whether or not they failed), the store as the
session leaves it, the log it produced, and the error that propagated out of
the call, if any. -/
structure BatchOutcome where
  attempted : List (String × StoredRow)
  store : UserStore
  logs : List LogEntry
  error : Option InsertError
deriving Repr, DecidableEq

/-- `insert_data(session, df_batch, batch_id)` of `spark_stream.py`
(lines 43–99).  `failing` models the session's transient state: the set of
row keys whose `session.execute` raises (connectivity loss, constraint
violation); such a write leaves the store unchanged and is caught and
logged by the `except` clause.  Per record, in iteration order:
if the id key is absent or its value falsy, raise `ValueError` (uncaught —
it propagates, ending the loop); if `uuid.UUID(id)` rejects the id, raise
`ValueError` likewise; otherwise issue the INSERT inside `try/except`, so a
write failure only logs and the loop continues. -/
def insert_data (failing : List String) : List UserRecord → UserStore → BatchOutcome
  | [], st => ⟨[], st, [], none⟩
  | r :: rest, st =>
    match kwargsGet r "id" with
    | none => ⟨[], st, [], some InsertError.missingId⟩
    | some s =>
      if s = "" then ⟨[], st, [], some InsertError.missingId⟩
      else if pythonUUIDOk s then
        let k := uuidKey s
        let row := rowOfRecord r
        if failing.contains k then
          let out := insert_data failing rest st
          ⟨(k, row) :: out.attempted, out.store,
           LogEntry.errorInsertFailed :: out.logs, out.error⟩
        else
          let out := insert_data failing rest (upsertRow k row st)
          ⟨(k, row) :: out.attempted, out.store,
           LogEntry.infoInserted (kwargsGet r "first_name") (kwargsGet r "last_name") :: out.logs,
           out.error⟩
      else ⟨[], st, [], some (InsertError.invalidUUID s)⟩

/-- Whether a record passes both id checks of `insert_data`: the id key is
present with a non-empty value and `uuid.UUID` accepts it. -/
def validIdB (r : UserRecord) : Bool :=
  match kwargsGet r "id" with
  | none => false
  | some s => !(s = "") && pythonUUIDOk s

/-- The write `insert_data` issues for a record that passes validation: the
canonical key of its id, and the column values it binds. -/
def recordWrite (r : UserRecord) : String × StoredRow :=
  (uuidKey ((kwargsGet r "id").getD ""), rowOfRecord r)

/-- The store after a list of writes is issued against a session whose
failing keys are `failing`: a failing write leaves the store unchanged
(the exception is caught), any other write upserts its row. -/
def commitWrites (failing : List String) : List (String × StoredRow) → UserStore → UserStore
  | [], st => st
  | (k, row) :: ws, st =>
    commitWrites failing ws (if failing.contains k then st else upsertRow k row st)

/-- The log line `insert_data` emits for one validated record. -/
def logOfRecord (failing : List String) (r : UserRecord) : LogEntry :=
  if failing.contains (recordWrite r).1 then LogEntry.errorInsertFailed
  else LogEntry.infoInserted (kwargsGet r "first_name") (kwargsGet r "last_name")

/-- The specific `ValueError` `insert_data` raises for an invalid id: the
missing-id message when the key is absent or its value falsy, otherwise the
invalid-UUID-format message carrying the offending string. -/
def errOf (r : UserRecord) : InsertError :=
  match kwargsGet r "id" with
  | none => InsertError.missingId
  | some s => if s = "" then InsertError.missingId else InsertError.invalidUUID s

/-- A record carrying only an id, as a probe of the id validation path. -/
def recWithId (s : String) : UserRecord :=
  ⟨some s, none, none, none, none, none, none, none, none, none, none, none⟩

/-- Whether `insert_data`, run on the one-record batch carrying this id,
reaches `session.execute` for it (exactly one write issued). -/
def executorIssuesWrite (s : String) : Bool :=
  (insert_data [] [recWithId s] []).attempted.length == 1

/-- The canonical hyphenated 8-4-4-4-12 textual UUID form: 36 characters,
hyphens at positions 8, 13, 18 and 23, hexadecimal digits elsewhere. -/
def canonicalHyphenated (s : String) : Bool :=
  s.toList.length = 36 &&
    (List.range 36).all fun i =>
      if i = 8 || i = 13 || i = 18 || i = 23 then s.toList.getD i ' ' = '-'
      else isHexChar (s.toList.getD i ' ')

/-- The three states of the Batch Driver: `__main__` of `spark_stream.py`. -/
inductive DriverState where
  | INITIALIZING
  | STREAMING
  | TERMINATED
deriving Repr, DecidableEq

/-- How a run of `__main__` ends up: the final driver state, the error
report it produced on the way (log lines of severity warning or error, and
uncaught-exception tracebacks), and whether `writeStream.foreachBatch(...)
.start()` — the batch loop — was reached. -/
structure MainOutcome where
  final : DriverState
  report : List String
  streamingStarted : Bool
deriving Repr, DecidableEq

/-- `create_spark_connection()` (lines 102–122): returns the session, or
`None` after logging an error when the builder raised. -/
def create_spark_connection (sparkOk : Bool) : Option Unit × List String :=
  if sparkOk then (some (), [])
  else (none, ["ERROR Could not create the spark session"])

/-- `connect_to_kafka(spark_conn)` (lines 125–139): returns the streaming
dataframe, or `None` after logging a warning when the subscription raised. -/
def connect_to_kafka (kafkaOk : Bool) : Option Unit × List String :=
  if kafkaOk then (some (), [])
  else (none, ["WARNING kafka dataframe could not be created"])

/-- `create_selection_df_from_kafka(spark_df)` (lines 154–179) as `__main__`
calls it: on a real dataframe it builds the parsed selection; on `None`
(kafka setup failed) the attribute access `spark_df.selectExpr` raises an
uncaught `AttributeError`, which crashes the process with a traceback. -/
def create_selection_df_from_kafka : Option Unit → Except String Unit
  | some _ => Except.ok ()
  | none => Except.error "AttributeError calling selectExpr on None"

/-- `create_cassandra_connection()` (lines 142–151): returns the session,
or `None` after logging an error when connecting raised. -/
def create_cassandra_connection (cassOk : Bool) : Option Unit × List String :=
  if cassOk then (some (), [])
  else (none, ["ERROR Could not create cassandra connection"])

/-- The `__main__` block (lines 182–202), with each external setup call's
success abstracted to a boolean.  Mirrors the code's control flow: a `None`
spark session skips everything; a `None` kafka dataframe crashes inside
`create_selection_df_from_kafka`; a `None` cassandra session logs an error
and skips the stream; otherwise keyspace and table are ensured and the
`foreachBatch` streaming query starts. -/
def mainRun (sparkOk kafkaOk cassOk : Bool) : MainOutcome :=
  match create_spark_connection sparkOk with
  | (none, logs) => ⟨DriverState.TERMINATED, logs, false⟩
  | (some _, _) =>
    match connect_to_kafka kafkaOk with
    | (df, klogs) =>
      match create_selection_df_from_kafka df with
      | Except.error tb => ⟨DriverState.TERMINATED, klogs ++ [tb], false⟩
      | Except.ok _ =>
        match create_cassandra_connection cassOk with
        | (none, clogs) =>
          ⟨DriverState.TERMINATED, clogs ++ ["ERROR Cassandra session creation failed"], false⟩
        | (some _, _) => ⟨DriverState.STREAMING, [], true⟩

/-- A fully populated record with a valid canonical UUID id. -/
def recA : UserRecord :=
  ⟨some "11111111-1111-1111-1111-111111111111", some "Ada", some "Lovelace", some "female",
   some "12 Main St", some "AB1 2CD", some "ada@example.com", some "ada", some "1815-12-10",
   some "2020-01-01", some "555-0100", some "pic1"⟩

/-- A second fully populated record with a different valid UUID id. -/
def recC : UserRecord :=
  ⟨some "22222222-2222-2222-2222-222222222222", some "Grace", some "Hopper", some "female",
   some "3 Navy Way", some "ZZ9 9ZZ", some "grace@example.com", some "grace", some "1906-12-09",
   some "2020-01-02", some "555-0101", some "pic2"⟩

/-- A record whose id key holds the empty string. -/
def recEmpty : UserRecord :=
  ⟨some "", some "Bob", some "Broken", some "male", some "1 Nowhere", some "XX1 1XX",
   some "bob@example.com", some "bob", some "1990-01-01", some "2020-01-03", some "555-0102",
   some "pic3"⟩

/-- A record whose id is a non-empty string `uuid.UUID` rejects. -/
def recNotAUUID : UserRecord :=
  ⟨some "not-a-uuid", some "Eve", some "Error", some "female", some "2 Nowhere", some "YY1 1YY",
   some "eve@example.com", some "eve", some "1991-01-01", some "2020-01-04", some "555-0103",
   some "pic4"⟩

/-- The lookup of the id field reduces to the record's id: the `"id"` key is
the first case of the dictionary model. -/
theorem kwargsGet_id (r : UserRecord) : kwargsGet r "id" = r.id := rfl

/-- Processing a batch whose head fails id validation stops at once: the
descriptive `ValueError` propagates, no write is attempted, the store is
untouched, nothing is logged. -/
theorem insert_data_cons_invalid (failing : List String) (r : UserRecord)
    (rest : List UserRecord) (st : UserStore) (h : validIdB r = false) :
    insert_data failing (r :: rest) st = ⟨[], st, [], some (errOf r)⟩ := by
  unfold validIdB at h
  unfold insert_data errOf
  cases hid : kwargsGet r "id" with
  | none => rfl
  | some s =>
    rw [hid] at h
    by_cases hs : s = ""
    · simp [hs]
    · simp [hs] at h
      simp [hs, h]

/-- Processing a batch whose head passes id validation issues that record's
write (successful or not), logs it, and continues with the rest of the batch
on the store the write leaves behind. -/
theorem insert_data_cons_valid (failing : List String) (r : UserRecord)
    (rest : List UserRecord) (st : UserStore) (h : validIdB r = true) :
    insert_data failing (r :: rest) st =
      ⟨recordWrite r ::
         (insert_data failing rest (commitWrites failing [recordWrite r] st)).attempted,
       (insert_data failing rest (commitWrites failing [recordWrite r] st)).store,
       logOfRecord failing r ::
         (insert_data failing rest (commitWrites failing [recordWrite r] st)).logs,
       (insert_data failing rest (commitWrites failing [recordWrite r] st)).error⟩ := by
  unfold validIdB at h
  cases hid : kwargsGet r "id" with
  | none => rw [hid] at h; exact absurd h (by simp)
  | some s =>
    rw [hid] at h
    rw [Bool.and_eq_true] at h
    obtain ⟨hs, hok⟩ := h
    have hs' : ¬ (s = "") := by simpa using hs
    conv_lhs => rw [insert_data]
    rw [hid]
    by_cases hf : uuidKey s ∈ failing
    · simp [hs', hok, hf, recordWrite, hid, logOfRecord, commitWrites]
    · simp [hs', hok, hf, recordWrite, hid, logOfRecord, commitWrites]

/-- The keyed upsert is idempotent on the store. -/
theorem upsertRow_idem (k : String) (v : StoredRow) (st : UserStore) :
    upsertRow k v (upsertRow k v st) = upsertRow k v st := by
  induction st with
  | nil => simp [upsertRow]
  | cons p rest ih =>
    obtain ⟨k', v'⟩ := p
    by_cases h : k' = k
    · subst h; simp [upsertRow]
    · simp [upsertRow, h, ih]

/-- On a batch whose records all pass id validation, `insert_data` attempts
exactly one write per record in order, logs one line per record, commits the
non-failing writes, and raises nothing — whatever the session's failing
keys. -/
theorem insert_data_all_valid (failing : List String) (batch : List UserRecord) :
    ∀ st : UserStore, (∀ r ∈ batch, validIdB r = true) →
      insert_data failing batch st =
        ⟨batch.map recordWrite, commitWrites failing (batch.map recordWrite) st,
         batch.map (logOfRecord failing), none⟩ := by
  induction batch with
  | nil => intro st _; rfl
  | cons r rest ih =>
    intro st h
    have hr : validIdB r = true := h r (by simp)
    have hrest : ∀ x ∈ rest, validIdB x = true := fun x hx => h x (by simp [hx])
    rw [insert_data_cons_valid failing r rest st hr, ih _ hrest]
    simp [commitWrites]

/-- On a batch whose first invalid record is `r`, `insert_data` attempts the
writes of exactly the records before `r`, keeps what they committed, and
raises `r`'s error; no record from `r` on is written. -/
theorem insert_data_first_invalid (failing : List String) (r : UserRecord)
    (rest : List UserRecord) (pre : List UserRecord) (hbad : validIdB r = false) :
    ∀ st : UserStore, (∀ x ∈ pre, validIdB x = true) →
      insert_data failing (pre ++ r :: rest) st =
        ⟨pre.map recordWrite, commitWrites failing (pre.map recordWrite) st,
         pre.map (logOfRecord failing), some (errOf r)⟩ := by
  induction pre with
  | nil => intro st _; simpa using insert_data_cons_invalid failing r rest st hbad
  | cons p ps ih =>
    intro st h
    have hp : validIdB p = true := h p (by simp)
    have hps : ∀ x ∈ ps, validIdB x = true := fun x hx => h x (by simp [hx])
    rw [List.cons_append, insert_data_cons_valid failing p (ps ++ r :: rest) st hp, ih _ hps]
    simp [commitWrites]

/-- `insert_data` finishes without raising exactly when every record of the
batch passes id validation: write failures never raise, id failures always
do. -/
theorem insert_data_error_none_iff (failing : List String) (batch : List UserRecord) :
    ∀ st : UserStore,
      ((insert_data failing batch st).error = none ↔ ∀ r ∈ batch, validIdB r = true) := by
  induction batch with
  | nil => intro st; simp [insert_data]
  | cons r rest ih =>
    intro st
    by_cases hr : validIdB r = true
    · rw [insert_data_cons_valid failing r rest st hr]
      simp only [List.forall_mem_cons, hr, true_and]
      exact ih _
    · rw [insert_data_cons_invalid failing r rest st (by simpa using hr)]
      simp [hr]

/-- Claim C1, counterexample: a batch `[record with empty id, valid record]`
makes `insert_data` raise `ValueError` out of the Upsert Executor with no
write attempted — the empty-id failure is not caught and suppressed, and the
sibling record is not processed, contradicting the claim that every
per-record failure is contained. -/
theorem C1_counterexample :
    (insert_data [] [recEmpty, recC] []).error = some InsertError.missingId ∧
    (insert_data [] [recEmpty, recC] []).attempted = [] := by decide

/-- Claim C1, amended: write failures are caught, logged and suppressed —
`insert_data` raises nothing and still attempts every record's write
whenever all ids validate, whatever writes fail — but a missing/empty or
malformed-UUID id raises a `ValueError` that propagates out of the Upsert
Executor: the call ends without error exactly when every record's id
validates. -/
theorem C1_corrected_propagation (failing : List String) (batch : List UserRecord)
    (st : UserStore) :
    ((insert_data failing batch st).error = none ↔ ∀ r ∈ batch, validIdB r = true) ∧
    ((∀ r ∈ batch, validIdB r = true) →
      (insert_data failing batch st).attempted = batch.map recordWrite) := by
  refine ⟨insert_data_error_none_iff failing batch st, fun h => ?_⟩
  rw [insert_data_all_valid failing batch st h]

/-- Claim C2, counterexample: on the batch `[recA, recEmpty, recC]` (record
2 has an empty id) `insert_data` does raise, but the store is not left
empty — record 1 was already written — so "none of the three records is
written" is false. -/
theorem C2_counterexample :
    (insert_data [] [recA, recEmpty, recC] []).error.isSome = true ∧
    (insert_data [] [recA, recEmpty, recC] []).store ≠ [] := by decide

/-- Claim C2, amended: on a batch of 3 records where record 2 has an empty
id, the Upsert Executor writes record 1, then raises at record 2; records 2
and 3 are never attempted, and record 1's committed write persists. -/
theorem C2_amended_thm :
    insert_data [] [recA, recEmpty, recC] [] =
      ⟨[recordWrite recA], [recordWrite recA], [logOfRecord [] recA],
       some InsertError.missingId⟩ := by decide

/-- Claim C3, code bug evidence: for the record `recA`, whose id is a valid
UUID and whose `post_code` field is `"AB1 2CD"`, `insert_data` issues
exactly one write and raises nothing, but the stored `post_code` column is
null — the code reads `kwargs.get("postcode")` while the schema field (and
the INSERT column) is `post_code` — so the stored value does not match the
input field. -/
theorem C3_postcode_mismatch :
    (insert_data [] [recA] []).error = none ∧
    (insert_data [] [recA] []).attempted = [recordWrite recA] ∧
    (rowOfRecord recA).post_code = none ∧
    recA.post_code = some "AB1 2CD" := by decide

/-- Claim C5: on a batch whose ids all validate, whatever set of row keys
the session fails to write (connectivity, constraint violation), no
exception propagates out of `insert_data`, every record of the batch has
its write attempted in order, and each record is logged (the failing ones
with the error message). -/
theorem C5_write_failure_isolated (failing : List String) (batch : List UserRecord)
    (st : UserStore) (h : ∀ r ∈ batch, validIdB r = true) :
    (insert_data failing batch st).error = none ∧
    (insert_data failing batch st).attempted = batch.map recordWrite ∧
    (insert_data failing batch st).logs = batch.map (logOfRecord failing) := by
  rw [insert_data_all_valid failing batch st h]
  exact ⟨rfl, rfl, rfl⟩

/-- Claim C5, witness: a session failing exactly `recA`'s write still lets
the batch `[recA, recC]` run to completion, attempting both writes. -/
theorem C5_witness :
    (insert_data [(recordWrite recA).1] [recA, recC] []).error = none ∧
    (insert_data [(recordWrite recA).1] [recA, recC] []).attempted =
      [recA, recC].map recordWrite ∧
    (insert_data [(recordWrite recA).1] [recA, recC] []).logs =
      [recA, recC].map (logOfRecord [(recordWrite recA).1]) :=
  C5_write_failure_isolated [(recordWrite recA).1] [recA, recC] [] (by decide)

/-- Claim C6: the write is a keyed upsert, so re-delivering the same record
leaves the store exactly as one delivery does, and from an empty store the
replayed record yields one stored row, not two. -/
theorem C6_upsert_idempotent (r : UserRecord) (st : UserStore) (h : validIdB r = true) :
    (insert_data [] [r, r] st).store = (insert_data [] [r] st).store ∧
    (insert_data [] [r, r] []).store = [recordWrite r] := by
  have h2 : ∀ x ∈ [r, r], validIdB x = true := by simp [h]
  have h1 : ∀ x ∈ [r], validIdB x = true := by simp [h]
  rw [insert_data_all_valid [] [r, r] st h2, insert_data_all_valid [] [r] st h1,
      insert_data_all_valid [] [r, r] [] h2]
  constructor
  · simp [commitWrites, upsertRow_idem]
  · simp [commitWrites, upsertRow, recordWrite]

/-- Claim C6, witness: replaying `recA` twice equals writing it once, and
yields the single stored row. -/
theorem C6_witness :
    (insert_data [] [recA, recA] []).store = (insert_data [] [recA] []).store ∧
    (insert_data [] [recA, recA] []).store = [recordWrite recA] :=
  C6_upsert_idempotent recA [] (by decide)

/-- Claim C7: a record whose id is absent, empty, or a non-empty string
`uuid.UUID` rejects makes the Upsert Executor raise the corresponding
descriptive `ValueError` (`errOf`: the missing-id message, or the
invalid-UUID-format message carrying the offending string) for that record,
with no store write issued and the store untouched. -/
theorem C7_invalid_id_no_write (failing : List String) (st : UserStore) (r : UserRecord)
    (h : validIdB r = false) :
    insert_data failing [r] st = ⟨[], st, [], some (errOf r)⟩ :=
  insert_data_cons_invalid failing r [] st h

/-- Claim C7, witness: the empty-id record gets the validation error, the
record with id `"not-a-uuid"` gets the UUID-format error naming the string;
neither is written. -/
theorem C7_witness :
    insert_data [] [recEmpty] [] = ⟨[], [], [], some (errOf recEmpty)⟩ ∧
    insert_data [] [recNotAUUID] [] =
      ⟨[], [], [], some (InsertError.invalidUUID "not-a-uuid")⟩ :=
  ⟨C7_invalid_id_no_write [] [] recEmpty (by decide),
   by rw [C7_invalid_id_no_write [] [] recNotAUUID (by decide)]; decide⟩

/-- Claim C8: the Batch Driver reaches `STREAMING` (starting the batch loop)
exactly when the Spark setup, the Kafka subscription and the Cassandra
connection all succeed; when any fails it ends `TERMINATED` with a non-empty
error report and the streaming query is never started. -/
theorem C8_driver_transitions :
    ∀ sparkOk kafkaOk cassOk : Bool,
      ((mainRun sparkOk kafkaOk cassOk).final = DriverState.STREAMING ↔
        sparkOk = true ∧ kafkaOk = true ∧ cassOk = true) ∧
      ((mainRun sparkOk kafkaOk cassOk).streamingStarted = (sparkOk && kafkaOk && cassOk)) ∧
      (¬(sparkOk = true ∧ kafkaOk = true ∧ cassOk = true) →
        (mainRun sparkOk kafkaOk cassOk).final = DriverState.TERMINATED ∧
        (mainRun sparkOk kafkaOk cassOk).report ≠ []) := by
  intro s k c
  cases s <;> cases k <;> cases c <;> decide

/-- Claim C9: when the first invalid-id record sits after the prefix `pre`
(all of whose ids validate), `insert_data` raises that record's error having
attempted exactly the writes of `pre`, in order; the non-failing ones are
committed and persist, and no record from the invalid one on is attempted —
the aborted batch is not atomic. -/
theorem C9_batch_aborts_at_first_invalid (failing : List String) (pre : List UserRecord)
    (r : UserRecord) (rest : List UserRecord) (st : UserStore)
    (hpre : ∀ x ∈ pre, validIdB x = true) (hbad : validIdB r = false) :
    insert_data failing (pre ++ r :: rest) st =
      ⟨pre.map recordWrite, commitWrites failing (pre.map recordWrite) st,
       pre.map (logOfRecord failing), some (errOf r)⟩ :=
  insert_data_first_invalid failing r rest pre hbad st hpre

/-- Claim C9, witness: in `[recA, recEmpty, recC]` the abort happens at
position 1: only `recA`'s write is attempted and committed. -/
theorem C9_witness :
    insert_data [] ([recA] ++ recEmpty :: [recC]) [] =
      ⟨[recA].map recordWrite, commitWrites [] ([recA].map recordWrite) [],
       [recA].map (logOfRecord []), some (errOf recEmpty)⟩ :=
  C9_batch_aborts_at_first_invalid [] [recA] recEmpty [recC] [] (by decide) (by decide)

/-- Claim C10: the Upsert Executor issues a write exactly for the id strings
Python's `uuid.UUID` constructor accepts, and that set goes beyond the
canonical hyphenated 8-4-4-4-12 form: the 32-hex-digit form without
hyphens, the braces-wrapped form, and the `urn:uuid:`-prefixed form are all
accepted and written, none of them canonical.  The further cases the
constructor's `int(hex, 16)` step tolerates inside the 32 normalised
characters — a `0x` prefix, a leading plus sign, underscores between
digits, surrounding whitespace, non-ASCII decimal digits — are accepted and
written too; and since every minus sign is removed with the hyphens before
parsing, a minus followed by 32 digits is accepted while a minus followed
by 31 digits leaves only 31 characters and is rejected. -/
theorem C10_uuid_accepts_noncanonical_forms :
    (∀ s : String, executorIssuesWrite s = pythonUUIDOk s) ∧
    pythonUUIDOk "12345678123412341234123456789abc" = true ∧
    canonicalHyphenated "12345678123412341234123456789abc" = false ∧
    pythonUUIDOk "\x7b12345678-1234-1234-1234-123456789abc\x7d" = true ∧
    canonicalHyphenated "\x7b12345678-1234-1234-1234-123456789abc\x7d" = false ∧
    pythonUUIDOk "urn:uuid:12345678-1234-1234-1234-123456789abc" = true ∧
    canonicalHyphenated "urn:uuid:12345678-1234-1234-1234-123456789abc" = false ∧
    executorIssuesWrite "12345678123412341234123456789abc" = true ∧
    executorIssuesWrite "\x7b12345678-1234-1234-1234-123456789abc\x7d" = true ∧
    executorIssuesWrite "urn:uuid:12345678-1234-1234-1234-123456789abc" = true ∧
    pythonUUIDOk "0x123456781234123412341234123456" = true ∧
    executorIssuesWrite "0x123456781234123412341234123456" = true ∧
    pythonUUIDOk "+1111111111111111111111111111111" = true ∧
    pythonUUIDOk "1234_5678_1234_1234_123456789abc" = true ∧
    pythonUUIDOk " 111111111111111111111111111111 " = true ∧
    pythonUUIDOk "١1111111111111111111111111111111" = true ∧
    pythonUUIDOk "-11111111111111111111111111111111" = true ∧
    pythonUUIDOk "-1111111111111111111111111111111" = false := by
  refine ⟨?_, by decide⟩
  intro s
  by_cases hs : s = ""
  · subst hs; decide
  · unfold executorIssuesWrite
    by_cases hok : pythonUUIDOk s = true
    · rw [insert_data_cons_valid [] (recWithId s) [] []
        (by simp [validIdB, kwargsGet_id, recWithId, hs, hok])]
      simp [insert_data, hok]
    · have hok' : pythonUUIDOk s = false := by simpa using hok
      rw [insert_data_cons_invalid [] (recWithId s) [] []
        (by simp [validIdB, kwargsGet_id, recWithId, hs, hok'])]
      simp [hok']
